import Mathlib

/-!
Verification of the rattle template compiler (`src/rattle/compile.py`).

The development shallowly embeds the compiler: Python's token type codes and
the `EXACT_TOKEN_TYPES` table, the `TokenStream` wrapper with its one-token
pushback stack, the recursive-descent `parse_expr`, block-tag parsing, span
compilation (`_token_to_code` / `Template.parse`) and rendering
(`Template.render`).  The lexer module `tokenise` is not part of `src/`; it
is modelled from the spec (see `tokenise` below).  The underlying lexical
scanner is Python 2.7's `tokenize.generate_tokens`, modelled for
single-line marker contents (see `scanToksF`).
-/

namespace Rattle

/-! ### Python token type codes (Python 2.7 `token.py`) -/

def ENDMARKER : Nat := 0
def NAME : Nat := 1
def NUMBER : Nat := 2
def STRING : Nat := 3
def NEWLINE : Nat := 4
def INDENT : Nat := 5
def DEDENT : Nat := 6
def LPAR : Nat := 7
def RPAR : Nat := 8
def LSQB : Nat := 9
def RSQB : Nat := 10
def COLON : Nat := 11
def COMMA : Nat := 12
def SEMI : Nat := 13
def PLUS : Nat := 14
def MINUS : Nat := 15
def STAR : Nat := 16
def SLASH : Nat := 17
def VBAR : Nat := 18
def AMPER : Nat := 19
def LESS : Nat := 20
def GREATER : Nat := 21
def EQUAL : Nat := 22
def DOT : Nat := 23
def PERCENT : Nat := 24
def BACKQUOTE : Nat := 25
def LBRACE : Nat := 26
def RBRACE : Nat := 27
def EQEQUAL : Nat := 28
def NOTEQUAL : Nat := 29
def LESSEQUAL : Nat := 30
def GREATEREQUAL : Nat := 31
def TILDE : Nat := 32
def CIRCUMFLEX : Nat := 33
def LEFTSHIFT : Nat := 34
def RIGHTSHIFT : Nat := 35
def DOUBLESTAR : Nat := 36
def PLUSEQUAL : Nat := 37
def MINEQUAL : Nat := 38
def STAREQUAL : Nat := 39
def SLASHEQUAL : Nat := 40
def PERCENTEQUAL : Nat := 41
def AMPEREQUAL : Nat := 42
def VBAREQUAL : Nat := 43
def CIRCUMFLEXEQUAL : Nat := 44
def LEFTSHIFTEQUAL : Nat := 45
def RIGHTSHIFTEQUAL : Nat := 46
def DOUBLESTAREQUAL : Nat := 47
def DOUBLESLASH : Nat := 48
def DOUBLESLASHEQUAL : Nat := 49
def AT : Nat := 50
def OP : Nat := 51
def ERRORTOKEN : Nat := 52

/-- The `EXACT_TOKEN_TYPES` table back-ported from Py3 in the source: maps an
operator token's text to its fine-grained token type. -/
def EXACT_TOKEN_TYPES (s : String) : Option Nat :=
  if s = "(" then some LPAR
  else if s = ")" then some RPAR
  else if s = "[" then some LSQB
  else if s = "]" then some RSQB
  else if s = ":" then some COLON
  else if s = "," then some COMMA
  else if s = ";" then some SEMI
  else if s = "+" then some PLUS
  else if s = "-" then some MINUS
  else if s = "*" then some STAR
  else if s = "/" then some SLASH
  else if s = "|" then some VBAR
  else if s = "&" then some AMPER
  else if s = "<" then some LESS
  else if s = ">" then some GREATER
  else if s = "=" then some EQUAL
  else if s = "." then some DOT
  else if s = "%" then some PERCENT
  else if s = "\x7b" then some LBRACE
  else if s = "\x7d" then some RBRACE
  else if s = "==" then some EQEQUAL
  else if s = "!=" then some NOTEQUAL
  else if s = "<=" then some LESSEQUAL
  else if s = ">=" then some GREATEREQUAL
  else if s = "~" then some TILDE
  else if s = "^" then some CIRCUMFLEX
  else if s = "<<" then some LEFTSHIFT
  else if s = ">>" then some RIGHTSHIFT
  else if s = "**" then some DOUBLESTAR
  else if s = "+=" then some PLUSEQUAL
  else if s = "-=" then some MINEQUAL
  else if s = "*=" then some STAREQUAL
  else if s = "/=" then some SLASHEQUAL
  else if s = "%=" then some PERCENTEQUAL
  else if s = "&=" then some AMPEREQUAL
  else if s = "|=" then some VBAREQUAL
  else if s = "^=" then some CIRCUMFLEXEQUAL
  else if s = "<<=" then some LEFTSHIFTEQUAL
  else if s = ">>=" then some RIGHTSHIFTEQUAL
  else if s = "**=" then some DOUBLESTAREQUAL
  else if s = "//" then some DOUBLESLASH
  else if s = "//=" then some DOUBLESLASHEQUAL
  else if s = "@" then some AT
  else none

/-- A lexical token: the coarse token type code and the token's text.
The source's `TokenInfo` also carries source positions (`start`, `end`,
`line`); positions play no role in any verified property and are omitted. -/
structure Tok where
  type : Nat
  string : String
  deriving Repr, DecidableEq

/-- `TokenInfo.exact_type`: an OP token's text is resolved through
`EXACT_TOKEN_TYPES` when present; every other token keeps its type. -/
def Tok.exact_type (t : Tok) : Nat :=
  if t.type = OP then
    match EXACT_TOKEN_TYPES t.string with
    | some n => n
    | none => t.type
  else t.type

/-! ### Errors

One error type covers both compilation and rendering.  Each constructor
stands for a concrete Python exception the source (or the code it
generates) can raise. -/

inductive PyErr where
  /-- `TemplateSyntaxError(tok)` raised by `_convert_name_or_literal` on a
  leading token that is not STRING, NUMBER or NAME. -/
  | templateSyntaxError (tok : Tok)
  /-- `TemplateSyntaxError('Expected ], found: %r' % tok)` raised by
  `parse_expr` when a `[` trailer's nested expression is not followed by
  `]`; the message embeds the token found. -/
  | templateSyntaxErrorExpected (tok : Tok)
  /-- `TemplateSyntaxError("Expected NAME: found %r" % tok)` raised by
  `parse_block_tag`. -/
  | templateSyntaxErrorBlock (tok : Tok)
  /-- `NameError`: the `.`-trailer error path executes
  `raise TemplateSyntaxError(content)`, but no name `content` is in scope
  in `parse_expr`, so evaluating the argument raises
  `NameError: global name 'content' is not defined` instead. -/
  | nameErrorContent
  /-- `NameError` from the generated code reading an unbound global. -/
  | nameErrorUndefined (name : String)
  /-- `tokenize.TokenError('EOF in multi-line statement')`: the scanner hit
  end of input with unbalanced brackets. -/
  | tokenError
  /-- `StopIteration` escaping from an explicit `next(...)` call on an
  exhausted stream. -/
  | stopIteration
  /-- `ValueError` from `int(...)` / `float(...)` on text they reject. -/
  | valueError
  /-- `KeyError` from a dict lookup (context lookup included). -/
  | keyError (key : String)
  /-- `IndexError` from an out-of-range sequence index. -/
  | indexError
  /-- `AttributeError` from `getattr` on an object lacking the attribute. -/
  | attributeError (name : String)
  /-- `TypeError` from subscripting a non-subscriptable value or using an
  invalid index type. -/
  | typeError
  /-- Out of fuel: never reached by the fuelled wrappers below, which are
  always called with fuel exceeding the input's size. -/
  | fuelOut
  deriving Repr, DecidableEq

/-! ### The lexical scanner

`TokenStream` wraps Python 2.7's `tokenize.generate_tokens` (an external
collaborator from the standard library).  Marker contents are single-line
strings with no surrounding whitespace (see `tokenise` below), so the
scanner is modelled for that shape, verified against the reference
tokenizer:
- names `[A-Za-z_][A-Za-z0-9_]*`;
- numbers: decimal digits with optional fraction, optional exponent and an
  optional `j`/`J`/`l`/`L` suffix (hex/octal/binary forms are not needed by
  any property below and are not modelled);
- strings delimited by a single or double quote, without escape processing;
- single-character operator tokens (no marker content below uses a
  multi-character operator);
- a whitespace run is skipped when a token follows it; a whitespace run at
  end of input yields one ERRORTOKEN per character (the pseudo-token regex
  finds no token after the whitespace);
- bracket nesting is tracked; end of input with `parenlev != 0` raises
  `TokenError('EOF in multi-line statement')`, otherwise ENDMARKER is
  emitted.  (`parenlev` can go negative: an unmatched closer also leaves it
  nonzero at end of input, and the reference tokenizer then raises.)
- any other character yields an ERRORTOKEN. -/

def isWS (c : Char) : Bool := c = ' ' ∨ c = '\t'

def isNameStart (c : Char) : Bool := c.isAlpha ∨ c = '_'

def isNameChar (c : Char) : Bool := c.isAlpha ∨ c.isDigit ∨ c = '_'

def mkTok (ty : Nat) (s : List Char) : Tok := ⟨ty, String.mk s⟩

/-- Maximal run of characters satisfying `p`: `(run, rest)`. -/
def takeRun (p : Char → Bool) : List Char → (List Char × List Char)
  | [] => ([], [])
  | c :: cs =>
    if p c then
      let (run, rest) := takeRun p cs
      (c :: run, rest)
    else ([], c :: cs)

/-- Scan a number token starting at a digit or at `.`+digit: digits,
optional `.` + digits, optional exponent, optional one-letter suffix.
Returns the token text and the rest. -/
def scanNumber (cs : List Char) : (List Char × List Char) :=
  let (intpart, r1) := takeRun Char.isDigit cs
  let (frac, r2) :=
    match r1 with
    | '.' :: r => let (ds, r') := takeRun Char.isDigit r; ('.' :: ds, r')
    | _ => ([], r1)
  let (expo, r3) :=
    match r2 with
    | e :: r =>
      if e = 'e' ∨ e = 'E' then
        match r with
        | s :: r' =>
          if s.isDigit then
            let (ds, r'') := takeRun Char.isDigit r'
            ([e, s] ++ ds, r'')
          else if (s = '+' ∨ s = '-') then
            match r' with
            | d :: r'' =>
              if d.isDigit then
                let (ds, r''') := takeRun Char.isDigit r''
                ([e, s, d] ++ ds, r''')
              else ([], r2)
            | [] => ([], r2)
          else ([], r2)
        | [] => ([], r2)
      else ([], r2)
    | [] => ([], r2)
  let (suffix, r4) :=
    match r3 with
    | c :: r => if c = 'j' ∨ c = 'J' ∨ c = 'l' ∨ c = 'L' then ([c], r) else ([], r3)
    | [] => ([], r3)
  (intpart ++ frac ++ expo ++ suffix, r4)

/-- Scan a quoted string starting after the opening quote `q`; returns the
interior and the rest after the closing quote, or `none` if unterminated. -/
def scanQuoted (q : Char) : List Char → Option (List Char × List Char)
  | [] => none
  | c :: cs =>
    if c = q then some ([], cs)
    else match scanQuoted q cs with
      | some (body, rest) => some (c :: body, rest)
      | none => none

/-- Characters the scanner turns into single-character OP tokens. -/
def isOpChar (c : Char) : Bool :=
  c ∈ ['(', ')', '[', ']', ':', ',', ';', '+', '-', '*', '/', '|', '&',
       '<', '>', '=', '.', '%', '`', '~', '^', '@'] ∨
  c.toNat = 123 ∨ c.toNat = 125

/-- One line of `generate_tokens`, fuelled by the input length.  Returns
the token sequence produced before end of input and a flag: `true` when
the scanner raises `TokenError` (unbalanced brackets at end of input)
after those tokens, `false` when the sequence ends with ENDMARKER followed
by `StopIteration`. -/
def scanToksF : Nat → List Char → Int → (List Tok × Bool)
  | 0, _, _ => ([], false)
  | _ + 1, [], plev => if plev = 0 then ([mkTok ENDMARKER []], false) else ([], true)
  | fuel + 1, c :: cs, plev =>
    if isWS c then
      if (cs.dropWhile isWS).isEmpty then
        -- whitespace with no token after it: one ERRORTOKEN per character
        let (ts, e) := scanToksF fuel cs plev
        (mkTok ERRORTOKEN [c] :: ts, e)
      else scanToksF fuel cs plev
    else if c.isDigit ∨ (c = '.' ∧ (cs.headD ' ').isDigit) then
      let (num, rest) := scanNumber (c :: cs)
      let (ts, e) := scanToksF fuel rest plev
      (mkTok NUMBER num :: ts, e)
    else if c = '\'' ∨ c = '"' then
      match scanQuoted c cs with
      | some (body, rest) =>
        let (ts, e) := scanToksF fuel rest plev
        (mkTok STRING ([c] ++ body ++ [c]) :: ts, e)
      | none =>
        let (ts, e) := scanToksF fuel cs plev
        (mkTok ERRORTOKEN [c] :: ts, e)
    else if isNameStart c then
      let (run, rest) := takeRun isNameChar cs
      let (ts, e) := scanToksF fuel rest plev
      (mkTok NAME (c :: run) :: ts, e)
    else if isOpChar c then
      let plev' : Int :=
        if c = '(' ∨ c = '[' ∨ c.toNat = 123 then plev + 1
        else if c = ')' ∨ c = ']' ∨ c.toNat = 125 then plev - 1
        else plev
      let (ts, e) := scanToksF fuel cs plev'
      (mkTok OP [c] :: ts, e)
    else
      let (ts, e) := scanToksF fuel cs plev
      (mkTok ERRORTOKEN [c] :: ts, e)

/-- `generate_tokens` on one line of content. -/
def scanToks (cs : List Char) : (List Tok × Bool) :=
  scanToksF (cs.length + 1) cs 0

/-! ### TokenStream -/

/-- `TokenStream`: a pushback stack over the scanner's token sequence.
`stack` is the LIFO pushback buffer (`self.stack`); `toks` are the tokens
the underlying generator has yet to yield; `lexErr` records whether the
generator raises `TokenError` (rather than `StopIteration`) once `toks`
is exhausted. -/
structure TokenStream where
  stack : List Tok
  toks : List Tok
  lexErr : Bool
  deriving Repr, DecidableEq

def TokenStream.ofContent (content : String) : TokenStream :=
  let (ts, e) := scanToks content.data
  ⟨[], ts, e⟩

/-- `TokenStream.next`: pop the pushback stack if non-empty, else pull a
fresh token from the scanner; an exhausted scanner raises `TokenError`
(unbalanced brackets) or `StopIteration`. -/
def TokenStream.next : TokenStream → Except PyErr (Tok × TokenStream)
  | ⟨t :: stack, toks, e⟩ => .ok (t, ⟨stack, toks, e⟩)
  | ⟨[], t :: toks, e⟩ => .ok (t, ⟨[], toks, e⟩)
  | ⟨[], [], e⟩ => .error (if e then .tokenError else .stopIteration)

/-- `TokenStream.push`: store one token to be replayed by the next call. -/
def TokenStream.push (s : TokenStream) (t : Tok) : TokenStream :=
  ⟨t :: s.stack, s.toks, s.lexErr⟩

def TokenStream.size (s : TokenStream) : Nat := s.stack.length + s.toks.length

/-! ### Expression AST

`parse_expr` builds Python `ast` nodes.  `PyExpr` mirrors exactly the node
shapes the source constructs: `ast.Str`, `ast.Num`, `ast.Name` (only ever
`context`), `ast.Attribute`, and `ast.Subscript` with an `ast.Index` slice
(the `Index` wrapper is implicit in `subscriptE`). -/

/-- An `ast.Num` payload: `int(...)` or `float(...)` of the token text.
A float is carried as its literal text: no verified property evaluates or
prints a float, so floating-point semantics need not be modelled. -/
inductive PyNum where
  | int (n : ℤ)
  | float (text : String)
  deriving Repr, DecidableEq

def PyNum.isInt : PyNum → Bool
  | .int _ => true
  | .float _ => false

inductive PyExpr where
  | strE (s : String)
  | numE (n : PyNum)
  | nameE (id : String)
  | attrE (value : PyExpr) (attr : String)
  | subscriptE (value : PyExpr) (slice : PyExpr)
  deriving Repr, DecidableEq

/-- `_context_lookup(x)`: AST for looking up `x` in the Context, i.e.
`context[x]` — `ast.Subscript(ast.Name('context'), ast.Index(ast.Str(x)))`. -/
def context_lookup (x : String) : PyExpr :=
  .subscriptE (.nameE "context") (.strE x)

/-- Python 2 `int(s)` accepts an optional sign followed by decimal digits
(always base 10); anything else — exponents, hex prefixes, `l`/`j`
suffixes — raises `ValueError`. -/
def pyIntOfString (s : String) : Except PyErr ℤ :=
  let core : List Char → Except PyErr ℤ := fun ds =>
    if ds ≠ [] ∧ ds.all Char.isDigit then
      .ok (ds.foldl (fun acc c => acc * 10 + (c.toNat - '0'.toNat : ℤ)) 0)
    else .error .valueError
  match s.data with
  | '-' :: ds => (core ds).map (fun n => -n)
  | '+' :: ds => core ds
  | ds => core ds

/-- Python 2 `float(s)` accepts an optional sign, digits with an optional
fraction (or a bare fraction), and an optional exponent; a trailing
`j`/`l` suffix raises `ValueError`. -/
def pyFloatValid (s : String) : Bool :=
  let afterSign :=
    match s.data with
    | '-' :: ds => ds
    | '+' :: ds => ds
    | ds => ds
  let (ip, r1) := takeRun Char.isDigit afterSign
  let (fp, r2) :=
    match r1 with
    | '.' :: r => let (ds, r') := takeRun Char.isDigit r; (ds, r')
    | _ => ([], r1)
  let fracDot := afterSign.length ≠ ip.length + fp.length + r2.length
  let digitsOk := ip ≠ [] ∨ (fracDot ∧ fp ≠ [])
  let expOk :=
    match r2 with
    | [] => true
    | e :: r =>
      (e = 'e' ∨ e = 'E') ∧
      (let body := match r with
        | '+' :: r' => r'
        | '-' :: r' => r'
        | r' => r'
       body ≠ [] ∧ body.all Char.isDigit)
  digitsOk ∧ expOk

def strHasChar (s : String) (c : Char) : Bool := s.data.contains c

/-- `_make_number(tok)`: `float(tok.string)` if the text contains `'.'`,
else `int(tok.string)`; wraps the result in `ast.Num`. -/
def make_number (tok : Tok) : Except PyErr PyExpr :=
  if strHasChar tok.string '.' then
    if pyFloatValid tok.string then .ok (.numE (.float tok.string))
    else .error .valueError
  else
    (pyIntOfString tok.string).map (fun n => .numE (.int n))

/-- Python 2 `s[1:-1]`: drop the first and last character. -/
def stripQuotes (s : String) : String :=
  String.mk ((s.data.drop 1).dropLast)

/-- `_convert_name_or_literal(tok)`: STRING, NUMBER or NAME become the
matching AST node; any other token raises `TemplateSyntaxError(tok)`. -/
def convert_name_or_literal (tok : Tok) : Except PyErr PyExpr :=
  if tok.exact_type = STRING then .ok (.strE (stripQuotes tok.string))
  else if tok.exact_type = NUMBER then make_number tok
  else if tok.exact_type = NAME then .ok (context_lookup tok.string)
  else .error (.templateSyntaxError tok)

/-! ### parse_expr

The trailer loop of `parse_expr` and its mutual recursion with itself are
fuelled; the wrapper `parse_expr` supplies `size + 1` fuel, which by the
token-count argument below always suffices (every recursive step first
consumes at least one token).  All properties are either stated for every
fuel value or computed concretely through the wrapper.

The loop is a Python `for tok in stream`: `StopIteration` raised by the
loop's own `next` ends the loop normally and returns the accumulated node,
whereas `StopIteration` from one of the explicit `next(stream)` calls
inside the body propagates out as an error, as does `TokenError` from
either. -/

mutual

def parseExprF : Nat → TokenStream → Except PyErr (PyExpr × TokenStream)
  | 0, _ => .error .fuelOut
  | fuel + 1, s =>
    -- First token MUST be either a literal, or name
    match s.next with
    | .error e => .error e
    | .ok (tok, s) =>
      match convert_name_or_literal tok with
      | .error e => .error e
      | .ok code => parseTrailersF fuel code s

def parseTrailersF : Nat → PyExpr → TokenStream → Except PyErr (PyExpr × TokenStream)
  | 0, _, _ => .error .fuelOut
  | fuel + 1, code, s =>
    match s.next with
    | .error .stopIteration => .ok (code, ⟨[], [], false⟩)
    | .error e => .error e
    | .ok (tok, s) =>
      if tok.exact_type = ENDMARKER then .ok (code, s)
      else if tok.exact_type = DOT then
        match s.next with
        | .error e => .error e
        | .ok (tok, s) =>
          if tok.exact_type ≠ NAME then .error .nameErrorContent
          else parseTrailersF fuel (.attrE code tok.string) s
      else if tok.exact_type = LSQB then
        match parseExprF fuel s with
        | .error e => .error e
        | .ok (lookup, s) =>
          let code := PyExpr.subscriptE code lookup
          match s.next with
          | .error e => .error e
          | .ok (tok, s) =>
            if tok.exact_type ≠ RSQB then .error (.templateSyntaxErrorExpected tok)
            else parseTrailersF fuel code s
      else .ok (code, s.push tok)

end

/-- `parse_expr(stream)`: parse one expression, returning the node and the
stream as the parser leaves it (a non-trailer token pushed back). -/
def parse_expr (s : TokenStream) : Except PyErr (PyExpr × TokenStream) :=
  parseExprF (s.size + 1) s

/-! ### parse_block_tag

Tokenizes the block tag's content, requires a leading NAME, then walks
`key = value`-shaped pairs without retaining anything: a non-NAME token
breaks the loop; after a NAME key, the explicit `next(parts)` propagates
its errors, and the `!= EQUAL` check does nothing (`pass`). -/

def parseBlockTagLoopF : Nat → TokenStream → Except PyErr Unit
  | 0, _ => .error .fuelOut
  | fuel + 1, s =>
    match s.next with
    | .error .stopIteration => .ok ()
    | .error e => .error e
    | .ok (tok, s) =>
      if tok.exact_type ≠ NAME then .ok ()
      else
        match s.next with
        | .error e => .error e
        | .ok (_, s) => parseBlockTagLoopF fuel s

def parse_block_tag (content : String) : Except PyErr Unit := do
  let parts := TokenStream.ofContent content
  let (tok, parts) ← parts.next
  if tok.exact_type ≠ NAME then .error (.templateSyntaxErrorBlock tok)
  else parseBlockTagLoopF (parts.size + 1) parts

/-! ### The lexer collaborator

Modelled from the spec: the module `rattle/tokenise.py` is not under
`src/`; the spec describes it as splitting raw source into an ordered
sequence of TEXT / VAR / BLOCK / COMMENT spans, with `\x7b\x7b ... \x7d\x7d`
variable markers, `\x7b% ... %\x7d` block markers and `\x7b# ... #\x7d`
comment markers, TEXT spans verbatim and VAR/BLOCK spans carrying the
marker-interior text.  The interior is taken stripped of surrounding
whitespace (Django-style `token_string[2:-2].strip()`): the spec's
examples (`\x7b\x7b name \x7d\x7d` renders `7`) require compilation to
succeed, which the scanner's indentation handling would forbid on an
interior with leading whitespace (it would emit an INDENT token first).
An unterminated marker is modelled as extending to the end of the source;
no verified property depends on that choice. -/

inductive SpanMode where
  | text
  | var
  | block
  | comment
  deriving Repr, DecidableEq

structure Span where
  mode : SpanMode
  content : String
  deriving Repr, DecidableEq

/-- Leading text before the first marker opener, plus the opener's mode and
the characters after the two opener characters, when a marker occurs. -/
def findOpen : List Char → List Char × Option (SpanMode × List Char)
  | [] => ([], none)
  | [c] => ([c], none)
  | c1 :: c2 :: rest =>
    if c1.toNat = 123 ∧ c2.toNat = 123 then ([], some (.var, rest))
    else if c1.toNat = 123 ∧ c2 = '%' then ([], some (.block, rest))
    else if c1.toNat = 123 ∧ c2 = '#' then ([], some (.comment, rest))
    else
      let (pre, r) := findOpen (c2 :: rest)
      (c1 :: pre, r)

/-- Whether a marker opener occurs anywhere in the text. -/
def hasOpen : List Char → Bool
  | [] => false
  | [_] => false
  | c1 :: c2 :: rest =>
    (c1.toNat = 123 ∧ (c2.toNat = 123 ∨ c2 = '%' ∨ c2 = '#')) ∨ hasOpen (c2 :: rest)

/-- The closing marker is `close` followed by a closing brace; returns the
interior and the characters after the closer. -/
def findClose (close : Char) : List Char → Option (List Char × List Char)
  | [] => none
  | [_] => none
  | c1 :: c2 :: rest =>
    if c1 = close ∧ c2.toNat = 125 then some ([], rest)
    else
      match findClose close (c2 :: rest) with
      | some (body, r) => some (c1 :: body, r)
      | none => none

def closerOf : SpanMode → Char
  | .var => '\x7d'
  | .block => '%'
  | .comment => '#'
  | .text => ' '

/-- Python `str.strip()` whitespace. -/
def isStripWS (c : Char) : Bool :=
  c = ' ' ∨ c = '\t' ∨ c = '\n' ∨ c = '\x0d' ∨ c = '\x0b' ∨ c = '\x0c'

def stripWS (cs : List Char) : List Char :=
  ((cs.dropWhile isStripWS).reverse.dropWhile isStripWS).reverse

/-- Fuelled span splitter; `tokenise` supplies sufficient fuel. -/
def tokeniseF : Nat → List Char → List Span
  | 0, _ => []
  | fuel + 1, cs =>
    match findOpen cs with
    | (pre, none) => if pre.isEmpty then [] else [⟨.text, String.mk pre⟩]
    | (pre, some (m, rest)) =>
      let textSpans : List Span := if pre.isEmpty then [] else [⟨.text, String.mk pre⟩]
      match findClose (closerOf m) rest with
      | none => textSpans ++ [⟨m, String.mk (stripWS rest)⟩]
      | some (body, rest') => textSpans ++ ⟨m, String.mk (stripWS body)⟩ :: tokeniseF fuel rest'

/-- `tokenise(source)`: the ordered span sequence of the source. -/
def tokenise (source : String) : List Span :=
  tokeniseF (source.data.length + 1) source.data

/-! ### Template compilation

`Template.__init__` parses the source into the list of per-span AST
expressions — the render plan — and compiles the generated module
`result = [str(x) for x in [steps]]`.  The generated module is embedded by
its meaning: the plan itself (`Template.plan`), evaluated by
`Template.render` below. -/

structure Template where
  plan : List PyExpr
  deriving Repr, DecidableEq

/-- `Template._token_to_code(token)`: TEXT becomes a verbatim `ast.Str`;
VAR tokenizes its content and parses one expression; BLOCK runs
`parse_block_tag` for its errors only and contributes nothing; a comment
contributes nothing. -/
def token_to_code (sp : Span) : Except PyErr (Option PyExpr) :=
  match sp.mode with
  | .text => .ok (some (.strE sp.content))
  | .var => do
    let (code, _) ← parse_expr (TokenStream.ofContent sp.content)
    .ok (some code)
  | .block => do
    let _ ← parse_block_tag sp.content
    .ok none
  | .comment => .ok none

/-- `Template.parse` over the span sequence: collect the non-`None` codes
in order; any failure aborts construction. -/
def templateSteps (spans : List Span) : Except PyErr (List PyExpr) :=
  spans.foldlM
    (fun acc sp => do
      match ← token_to_code sp with
      | some code => pure (acc ++ [code])
      | none => pure acc)
    []

/-- `Template(source)`: compile a source text into a Template, or fail. -/
def Template.compile (source : String) : Except PyErr Template :=
  (templateSteps (tokenise source)).map Template.mk

/-! ### Values and rendering

`Template.render(context)` executes the compiled module with the fresh
globals `{'context': context}` and joins `result`.  Values are the Python
values a context supplies: integers, floats, strings, lists and
string-keyed dicts (the spec's Context is a name→value mapping).  Floats
are carried as literal text and never computed with.  -/

inductive Value where
  | int (n : ℤ)
  | float (text : String)
  | str (s : String)
  | list (xs : List Value)
  | dict (entries : List (String × Value))

/-- Dict lookup, first matching key. -/
def dlookup : List (String × Value) → String → Option Value
  | [], _ => none
  | (k, v) :: rest, key => if k = key then some v else dlookup rest key

mutual

/-- Python `repr` for the modelled values, used by `str` on containers.
No verified property stringifies a container or float; the definition is
total so rendering is total. -/
def pyRepr : Value → String
  | .int n => toString n
  | .float t => t
  | .str s => "\x27" ++ s ++ "\x27"
  | .list xs => "[" ++ pyReprList xs ++ "]"
  | .dict d => "\x7b" ++ pyReprDict d ++ "\x7d"

def pyReprList : List Value → String
  | [] => ""
  | [x] => pyRepr x
  | x :: xs => pyRepr x ++ ", " ++ pyReprList xs

def pyReprDict : List (String × Value) → String
  | [] => ""
  | [(k, v)] => "\x27" ++ k ++ "\x27: " ++ pyRepr v
  | (k, v) :: rest => "\x27" ++ k ++ "\x27: " ++ pyRepr v ++ ", " ++ pyReprDict rest

end

/-- Python `str(x)` as applied by the generated list comprehension. -/
def pyStr : Value → String
  | .int n => toString n
  | .float t => t
  | .str s => s
  | v => pyRepr v

/-- Python `getattr` as the generated `ast.Attribute` code performs it.
The attribute sets of the modelled value kinds contain no user attribute
(builtin method/field names such as `append` or `real` are outside every
verified property and are not modelled): access raises `AttributeError`.
The base value is a genuine argument: it has already been evaluated, and
its evaluation errors take precedence. -/
def pyGetattr (_ : Value) (name : String) : Except PyErr Value :=
  .error (.attributeError name)

/-- Python subscription `base[key]` as the generated `ast.Subscript` code
performs it: dict lookup by string key (`KeyError` when absent or when the
key has a non-string type, since the modelled dicts are string-keyed);
list and string indexing by integer with Python's negative-index rule and
`IndexError` out of range, `TypeError` for a non-integer index; `TypeError`
for a non-subscriptable base. -/
def pySubscript : Value → Value → Except PyErr Value
  | .dict d, .str k =>
    match dlookup d k with
    | some v => .ok v
    | none => .error (.keyError k)
  | .dict _, k => .error (.keyError (pyRepr k))
  | .list xs, .int i =>
    if 0 ≤ i ∧ i < (xs.length : ℤ) then
      match xs.get? i.toNat with
      | some v => .ok v
      | none => .error .indexError
    else if -(xs.length : ℤ) ≤ i ∧ i < 0 then
      match xs.get? (i + xs.length).toNat with
      | some v => .ok v
      | none => .error .indexError
    else .error .indexError
  | .list _, _ => .error .typeError
  | .str s, .int i =>
    if 0 ≤ i ∧ i < (s.data.length : ℤ) then
      match s.data.get? i.toNat with
      | some c => .ok (.str (String.mk [c]))
      | none => .error .indexError
    else if -(s.data.length : ℤ) ≤ i ∧ i < 0 then
      match s.data.get? (i + s.data.length).toNat with
      | some c => .ok (.str (String.mk [c]))
      | none => .error .indexError
    else .error .indexError
  | .str _, _ => .error .typeError
  | .int _, _ => .error .typeError
  | .float _, _ => .error .typeError

/-- Evaluation of a compiled expression under the exec globals
`{'context': context}`: literals to themselves, `ast.Name` through the
globals (only `context` is bound), `ast.Attribute` and `ast.Subscript`
evaluating their parts left to right before the access. -/
def evalExpr (context : Value) : PyExpr → Except PyErr Value
  | .strE s => .ok (.str s)
  | .numE (.int n) => .ok (.int n)
  | .numE (.float t) => .ok (.float t)
  | .nameE id => if id = "context" then .ok context else .error (.nameErrorUndefined id)
  | .attrE v a =>
    match evalExpr context v with
    | .error e => .error e
    | .ok base => pyGetattr base a
  | .subscriptE v sl =>
    match evalExpr context v with
    | .error e => .error e
    | .ok base =>
      match evalExpr context sl with
      | .error e => .error e
      | .ok key => pySubscript base key

/-- `u''.join` of the stringified results. -/
def pyJoin (l : List String) : String :=
  String.mk (l.foldr (fun s acc => s.data ++ acc) [])

/-- The generated list display `[e1, ..., en]`: each element evaluated in
plan order, any error aborting the whole list. -/
def evalPlan (context : Value) : List PyExpr → Except PyErr (List Value)
  | [] => .ok []
  | e :: rest =>
    match evalExpr context e with
    | .error err => .error err
    | .ok v =>
      match evalPlan context rest with
      | .error err => .error err
      | .ok vs => .ok (v :: vs)

/-- `Template.render(context)`: evaluate every render-plan expression in
plan order (the generated list `[e1, ..., en]` is built first, so any
evaluation error aborts with no output), stringify each value, and join. -/
def Template.render (t : Template) (context : Value) : Except PyErr String :=
  match evalPlan context t.plan with
  | .error err => .error err
  | .ok vals => .ok (pyJoin (vals.map pyStr))

/-- One render call as an operation on the Template: `exec` writes only
into the call-local globals dict `{'context': context}`, reading
`self.func` without assigning any attribute of `self`, so the Template
the call leaves behind is the Template it received. -/
def renderCall (t : Template) (context : Value) : Except PyErr String × Template :=
  (t.render context, t)

/-- Compile and render in one step. -/
def compileRender (source : String) (context : Value) : Except PyErr String := do
  let t ← Template.compile source
  t.render context

/-- The expression tree contains, somewhere inside it, the
`ContextLookup(name)` node — the
`ast.Subscript(ast.Name('context'), ast.Index(ast.Str(name)))` shape that
`_context_lookup` builds. -/
inductive IsLookupIn (name : String) : PyExpr → Prop where
  | here : IsLookupIn name (context_lookup name)
  | attrBase {v : PyExpr} {a : String} :
      IsLookupIn name v → IsLookupIn name (.attrE v a)
  | subValue {v sl : PyExpr} :
      IsLookupIn name v → IsLookupIn name (.subscriptE v sl)
  | subSlice {v sl : PyExpr} :
      IsLookupIn name sl → IsLookupIn name (.subscriptE v sl)

def exceptIsOk {ε α : Type} : Except ε α → Bool
  | .ok _ => true
  | .error _ => false

/-! ## The claims -/

/-- **C6.** For every TokenStream `s` and token `t`, `next` after
`push t` returns exactly `t` and restores the stream to `s`: no fresh
token is pulled from the underlying scanner and the scanner state is
unchanged. -/
theorem next_after_push_returns_pushed_token (s : TokenStream) (t : Tok) :
    (s.push t).next = .ok (t, s) := rfl

/-- **C7.** Rendering a compiled Template with `c1` and then with `c2`
yields the same pair of output results as rendering in the opposite
order, and neither call mutates the Template: the Template left behind by
any sequence of render calls is the original one. -/
theorem render_order_independent_and_pure (t : Template) (c1 c2 : Value) :
    ((renderCall t c1).1 = (renderCall ((renderCall t c2).2) c1).1 ∧
     (renderCall ((renderCall t c1).2) c2).1 = (renderCall t c2).1) ∧
    (renderCall ((renderCall t c1).2) c2).2 = t ∧
    (renderCall ((renderCall t c2).2) c1).2 = t := by
  exact ⟨⟨rfl, rfl⟩, rfl, rfl⟩

/-- **C8.** Compiling `\x7b\x7b a[b[0]] \x7d\x7d` succeeds, with the `[`
trailer parsing the fully recursive nested expression `a[b[0]]`, and
rendering it against the context `{a: [7], b: [0]}` returns `"7"`. -/
theorem nested_index_template_renders_seven :
    Template.compile "\x7b\x7b a[b[0]] \x7d\x7d" =
      .ok ⟨[.subscriptE (context_lookup "a")
             (.subscriptE (context_lookup "b") (.numE (.int 0)))]⟩ ∧
    compileRender "\x7b\x7b a[b[0]] \x7d\x7d"
      (.dict [("a", .list [.int 7]), ("b", .list [.int 0])]) = .ok "7" := by
  exact ⟨rfl, rfl⟩

/-- **C10.** A VAR span whose content holds extra tokens after one
complete expression compiles rather than failing: on `a b`, `parse_expr`
pushes the unrecognized NAME `b` back and returns the lookup of `a`, the
compiler discards the span's remaining tokens — `\x7b\x7b a b \x7d\x7d`
compiles to exactly the plan of `\x7b\x7b a \x7d\x7d` — and the span
renders as the leading expression alone. -/
theorem extra_tokens_after_expression_are_discarded :
    parse_expr (TokenStream.ofContent "a b") =
      .ok (context_lookup "a", ⟨[⟨NAME, "b"⟩], [⟨ENDMARKER, ""⟩], false⟩) ∧
    Template.compile "\x7b\x7b a b \x7d\x7d" = Template.compile "\x7b\x7b a \x7d\x7d" ∧
    compileRender "\x7b\x7b a b \x7d\x7d" (.dict [("a", .int 5)]) = .ok "5" := by
  exact ⟨rfl, rfl, rfl⟩

/-- **C2** (code bug). On a token stream where a `.` trailer is followed
by a non-NAME token, `parse_expr` does fail, but not with a
`TemplateSyntaxError` carrying the offending token: the error path
executes `raise TemplateSyntaxError(content)` and the name `content` is
not defined in `parse_expr`, so the call raises
`NameError: global name 'content' is not defined`.  Witnessed on the
stream of `a."x"` and end to end on `\x7b\x7b a."x" \x7d\x7d`. -/
theorem dot_followed_by_non_name_raises_nameerror :
    parse_expr ⟨[], [⟨NAME, "a"⟩, ⟨OP, "."⟩, ⟨STRING, "\"x\""⟩, ⟨ENDMARKER, ""⟩], false⟩ =
      .error .nameErrorContent ∧
    Template.compile "\x7b\x7b a.\"x\" \x7d\x7d" = .error .nameErrorContent := by
  exact ⟨rfl, rfl⟩

/-- On text containing no marker opener, `findOpen` returns the whole
text as leading text. -/
theorem findOpen_no_marker :
    ∀ cs : List Char, hasOpen cs = false → findOpen cs = (cs, none) := by
  intro cs
  induction cs with
  | nil => intro _; rfl
  | cons c1 tail ih =>
    cases tail with
    | nil => intro _; rfl
    | cons c2 rest =>
      intro h
      simp only [hasOpen, decide_eq_false_iff_not, not_or, Bool.not_eq_true] at h
      obtain ⟨h1, h2⟩ := h
      have hA : ¬(c1.toNat = 123 ∧ c2.toNat = 123) := fun hx => h1 ⟨hx.1, Or.inl hx.2⟩
      have hB : ¬(c1.toNat = 123 ∧ c2 = '%') := fun hx => h1 ⟨hx.1, Or.inr (Or.inl hx.2)⟩
      have hC : ¬(c1.toNat = 123 ∧ c2 = '#') := fun hx => h1 ⟨hx.1, Or.inr (Or.inr hx.2)⟩
      simp [findOpen, hA, hB, hC, ih h2]

/-- **C1.** A source with no variable, block or comment markers lexes to
TEXT spans only, and compiling then rendering it against any context
returns exactly the source text, whitespace included. -/
theorem text_only_source_renders_verbatim (source : String)
    (h : hasOpen source.data = false) (context : Value) :
    compileRender source context = .ok source := by
  obtain ⟨cs⟩ := source
  cases cs with
  | nil => rfl
  | cons c rest =>
    have hfo := findOpen_no_marker (c :: rest) h
    have ht : tokenise (String.mk (c :: rest)) = [⟨.text, String.mk (c :: rest)⟩] := by
      simp only [tokenise]
      show tokeniseF ((c :: rest).length + 1) (c :: rest) = _
      simp [tokeniseF, hfo]
    have hc : Template.compile (String.mk (c :: rest)) =
        .ok ⟨[.strE (String.mk (c :: rest))]⟩ := by
      simp only [Template.compile, ht]
      rfl
    have hr : (Template.mk [.strE (String.mk (c :: rest))]).render context =
        .ok (String.mk (c :: rest)) := by
      simp [Template.render, evalPlan, evalExpr, pyJoin, pyStr]
    simp only [compileRender, hc]
    exact hr

/-- Witness for C1 at the marker-free source `hello`. -/
theorem text_only_source_renders_verbatim_witness :
    hasOpen "hello".data = false ∧
    compileRender "hello" (.dict []) = .ok "hello" :=
  ⟨rfl, text_only_source_renders_verbatim "hello" rfl (.dict [])⟩

/-- **C4.** Whenever the first token `parse_expr` pulls has an exact type
other than STRING, NUMBER or NAME, it fails with `TemplateSyntaxError`
carrying that offending token (for any fuel); in particular compiling
`\x7b\x7b [a] \x7d\x7d` fails with the syntax error carrying the leading
`[` operator token. -/
theorem leading_token_must_be_atom (s s1 : TokenStream) (tok : Tok) (fuel : Nat)
    (hn : s.next = .ok (tok, s1))
    (hstr : tok.exact_type ≠ STRING) (hnum : tok.exact_type ≠ NUMBER)
    (hname : tok.exact_type ≠ NAME) :
    parseExprF (fuel + 1) s = .error (.templateSyntaxError tok) ∧
    Template.compile "\x7b\x7b [a] \x7d\x7d" = .error (.templateSyntaxError ⟨OP, "["⟩) := by
  refine ⟨?_, rfl⟩
  simp only [parseExprF, hn]
  simp [convert_name_or_literal, hstr, hnum, hname]

/-- Witness for C4, at the stream holding the single token `[`. -/
theorem leading_token_must_be_atom_witness :
    (⟨[], [⟨OP, "["⟩], false⟩ : TokenStream).next = .ok (⟨OP, "["⟩, ⟨[], [], false⟩) ∧
    (Tok.mk OP "[").exact_type ≠ STRING ∧
    (Tok.mk OP "[").exact_type ≠ NUMBER ∧
    (Tok.mk OP "[").exact_type ≠ NAME ∧
    (parseExprF 1 ⟨[], [⟨OP, "["⟩], false⟩ = .error (.templateSyntaxError ⟨OP, "["⟩) ∧
     Template.compile "\x7b\x7b [a] \x7d\x7d" = .error (.templateSyntaxError ⟨OP, "["⟩)) :=
  ⟨rfl, by decide, by decide, by decide,
   leading_token_must_be_atom ⟨[], [⟨OP, "["⟩], false⟩ ⟨[], [], false⟩ ⟨OP, "["⟩ 0
     rfl (by decide) (by decide) (by decide)⟩

/-- **C3** (counterexample to the claim as stated).  Compiling
`\x7b\x7b a[ \x7d\x7d` does fail, but not with the
`Expected ], found: ...` syntax error: the marker interior `a[` leaves the
scanner's bracket level open, so the scanner itself raises
`tokenize.TokenError('EOF in multi-line statement')` when `parse_expr`
pulls the token after `[` — a lexical error naming no token. -/
theorem unterminated_index_fails_with_lexical_error :
    Template.compile "\x7b\x7b a[ \x7d\x7d" = .error .tokenError := rfl

/-- **C3** (amended).  Whenever a `[` trailer's nested expression parses
and the next token pulled is not `]`, `parse_expr` fails with the
`TemplateSyntaxError('Expected ], found: %r' % tok)` naming the token
found; the particular source `\x7b\x7b a[ \x7d\x7d` instead fails earlier,
with the scanner's `TokenError`. -/
theorem missing_rsqb_after_nested_expression (code e : PyExpr) (fuel : Nat)
    (s0 s1 s2 s3 : TokenStream) (lt t : Tok)
    (hlt : lt.exact_type = LSQB)
    (h0 : s0.next = .ok (lt, s1))
    (hp : parseExprF fuel s1 = .ok (e, s2))
    (h2 : s2.next = .ok (t, s3))
    (hne : t.exact_type ≠ RSQB) :
    parseTrailersF (fuel + 1) code s0 = .error (.templateSyntaxErrorExpected t) ∧
    Template.compile "\x7b\x7b a[ \x7d\x7d" = .error .tokenError := by
  refine ⟨?_, rfl⟩
  simp only [parseTrailersF, h0]
  rw [hlt]
  simp [LSQB, ENDMARKER, DOT, hp, h2, hne]

/-- Witness for C3 (amended), on the token stream of `a[b c]` after the
leading `a` has been consumed: the nested expression parses as the lookup
of `b`, the next token is the NAME `c`, and the loop fails naming `c`. -/
theorem missing_rsqb_after_nested_expression_witness :
    (⟨[], [⟨OP, "["⟩, ⟨NAME, "b"⟩, ⟨NAME, "c"⟩], false⟩ : TokenStream).next =
      .ok (⟨OP, "["⟩, ⟨[], [⟨NAME, "b"⟩, ⟨NAME, "c"⟩], false⟩) ∧
    parseExprF 3 ⟨[], [⟨NAME, "b"⟩, ⟨NAME, "c"⟩], false⟩ =
      .ok (context_lookup "b", ⟨[⟨NAME, "c"⟩], [], false⟩) ∧
    (⟨[⟨NAME, "c"⟩], [], false⟩ : TokenStream).next = .ok (⟨NAME, "c"⟩, ⟨[], [], false⟩) ∧
    (Tok.mk NAME "c").exact_type ≠ RSQB ∧
    (parseTrailersF 4 (context_lookup "a") ⟨[], [⟨OP, "["⟩, ⟨NAME, "b"⟩, ⟨NAME, "c"⟩], false⟩ =
       .error (.templateSyntaxErrorExpected ⟨NAME, "c"⟩) ∧
     Template.compile "\x7b\x7b a[ \x7d\x7d" = .error .tokenError) :=
  ⟨rfl, rfl, rfl, by decide,
   missing_rsqb_after_nested_expression (context_lookup "a") (context_lookup "b") 3
     ⟨[], [⟨OP, "["⟩, ⟨NAME, "b"⟩, ⟨NAME, "c"⟩], false⟩
     ⟨[], [⟨NAME, "b"⟩, ⟨NAME, "c"⟩], false⟩
     ⟨[⟨NAME, "c"⟩], [], false⟩ ⟨[], [], false⟩
     ⟨OP, "["⟩ ⟨NAME, "c"⟩ (by decide) rfl rfl rfl (by decide)⟩

/-- **C5** (counterexample to the claim as stated).  The NUMBER token
`1e5` contains no decimal point, yet the parser produces no integer
literal for it: `int('1e5')` raises `ValueError`, so compilation of
`\x7b\x7b 1e5 \x7d\x7d` fails outright. -/
theorem exponent_number_token_produces_no_literal :
    strHasChar "1e5" '.' = false ∧
    convert_name_or_literal ⟨NUMBER, "1e5"⟩ = .error .valueError ∧
    Template.compile "\x7b\x7b 1e5 \x7d\x7d" = .error .valueError := ⟨rfl, rfl, rfl⟩

/-- **C5** (amended).  Whenever `_make_number` produces a literal at all,
that literal holds an integer exactly when the token's text contains no
`'.'` — the decimal-point test is the sole basis for the distinction;
NUMBER tokens accepted by neither `int()` nor `float()` (exponents
without a dot, suffixed or based forms) make compilation fail with
`ValueError` instead of producing a literal. -/
theorem number_literal_is_int_iff_no_dot (t : Tok) (lit : PyNum)
    (h : make_number t = .ok (.numE lit)) :
    lit.isInt = true ↔ strHasChar t.string '.' = false := by
  unfold make_number at h
  by_cases hd : strHasChar t.string '.' = true
  · rw [if_pos hd] at h
    by_cases hv : pyFloatValid t.string = true
    · rw [if_pos hv] at h
      simp only [Except.ok.injEq, PyExpr.numE.injEq] at h
      subst h
      simp [PyNum.isInt, hd]
    · rw [if_neg hv] at h
      cases h
  · rw [if_neg hd] at h
    cases hi : pyIntOfString t.string with
    | error e => rw [hi] at h; simp [Except.map] at h
    | ok n =>
      rw [hi] at h
      simp only [Except.map, Except.ok.injEq, PyExpr.numE.injEq] at h
      subst h
      simp only [Bool.not_eq_true] at hd
      simp [PyNum.isInt, hd]

/-- Witness for C5 (amended), at the NUMBER token `3`. -/
theorem number_literal_is_int_iff_no_dot_witness :
    make_number ⟨NUMBER, "3"⟩ = .ok (.numE (.int 3)) ∧
    ((PyNum.int 3).isInt = true ↔ strHasChar "3" '.' = false) :=
  ⟨rfl, number_literal_is_int_iff_no_dot ⟨NUMBER, "3"⟩ (.int 3) rfl⟩

/-- An expression containing a context lookup of a name absent from the
(dict) context never evaluates to a value: evaluation either reaches the
lookup node — whose own dict access fails with `KeyError` — or dies
earlier inside a subterm, every access evaluating all its subterms before
acting. -/
theorem evalExpr_absent_lookup_never_ok (entries : List (String × Value))
    (name : String) (habs : dlookup entries name = none) :
    ∀ {e : PyExpr}, IsLookupIn name e →
      ∀ v, evalExpr (.dict entries) e ≠ .ok v := by
  intro e h
  induction h with
  | here =>
    intro v hok
    simp [context_lookup, evalExpr, pySubscript, habs] at hok
  | @attrBase w a _ _ =>
    intro v hok
    cases hw : evalExpr (.dict entries) w with
    | error e => simp [evalExpr, hw] at hok
    | ok bv => simp [evalExpr, hw, pyGetattr] at hok
  | @subValue w sl _ ih =>
    intro v hok
    cases hw : evalExpr (.dict entries) w with
    | error e => simp [evalExpr, hw] at hok
    | ok bv => exact ih bv hw
  | @subSlice w sl _ ih =>
    intro v hok
    cases hw : evalExpr (.dict entries) w with
    | error e => simp [evalExpr, hw] at hok
    | ok bv =>
      cases hsl : evalExpr (.dict entries) sl with
      | error e => simp [evalExpr, hw, hsl] at hok
      | ok kv => exact ih kv hsl

/-- A plan that contains an expression with an absent-name lookup never
evaluates to a value list. -/
theorem evalPlan_absent_lookup_never_ok (entries : List (String × Value))
    (name : String) (habs : dlookup entries name = none) :
    ∀ (plan : List PyExpr) (e : PyExpr), e ∈ plan → IsLookupIn name e →
      ∀ vs, evalPlan (.dict entries) plan ≠ .ok vs := by
  intro plan
  induction plan with
  | nil => intro e he; cases he
  | cons hd tl ih =>
    intro e he hl vs hok
    cases hhd : evalExpr (.dict entries) hd with
    | error err => simp [evalPlan, hhd] at hok
    | ok v =>
      cases htl : evalPlan (.dict entries) tl with
      | error err => simp [evalPlan, hhd, htl] at hok
      | ok ws =>
        rcases List.mem_cons.mp he with rfl | htl'
        · exact evalExpr_absent_lookup_never_ok entries name habs hl v hhd
        · exact ih e htl' hl ws htl

/-- **C9** (counterexample to the claim as stated).  The compiled plan of
`\x7b\x7b 3[2][b] \x7d\x7d` contains the `ContextLookup("b")` node and
`b` is absent from the empty context, yet rendering fails with
`TypeError` — `(3)[2]` is evaluated first and an int is not
subscriptable — not with a not-found lookup error. -/
theorem absent_name_render_error_not_a_lookup_error :
    Template.compile "\x7b\x7b 3[2][b] \x7d\x7d" =
      .ok ⟨[.subscriptE (.subscriptE (.numE (.int 3)) (.numE (.int 2)))
              (context_lookup "b")]⟩ ∧
    IsLookupIn "b"
      (.subscriptE (.subscriptE (.numE (.int 3)) (.numE (.int 2)))
        (context_lookup "b")) ∧
    dlookup [] "b" = none ∧
    compileRender "\x7b\x7b 3[2][b] \x7d\x7d" (.dict []) = .error .typeError := by
  exact ⟨rfl, .subSlice .here, rfl, rfl⟩

/-- **C9** (amended).  For every compiled Template whose plan contains a
`ContextLookup(name)` node and every dict context in which `name` is
absent, `render` fails and returns no output string — the failure being
the lookup's own `KeyError` when evaluation reaches the lookup, but
possibly an earlier evaluation error (such as the `TypeError` above)
otherwise. -/
theorem absent_name_render_produces_no_output (t : Template)
    (name : String) (entries : List (String × Value)) (e : PyExpr)
    (hmem : e ∈ t.plan) (hl : IsLookupIn name e)
    (habs : dlookup entries name = none) :
    exceptIsOk (t.render (.dict entries)) = false := by
  cases hp : evalPlan (.dict entries) t.plan with
  | error err => simp [Template.render, hp, exceptIsOk]
  | ok vs =>
    exact absurd hp (evalPlan_absent_lookup_never_ok entries name habs t.plan e hmem hl vs)

/-- Witness for C9 (amended): a one-expression plan looking up `x` under
the empty context renders to an error. -/
theorem absent_name_render_produces_no_output_witness :
    context_lookup "x" ∈ (Template.mk [context_lookup "x"]).plan ∧
    dlookup [] "x" = none ∧
    exceptIsOk ((Template.mk [context_lookup "x"]).render (.dict [])) = false := by
  exact ⟨List.mem_singleton.mpr rfl, rfl,
    absent_name_render_produces_no_output (Template.mk [context_lookup "x"]) "x" []
      (context_lookup "x") (List.mem_singleton.mpr rfl) .here rfl⟩

end Rattle
